import Mathlib

/-!
Verification of the natural-language specification of the
`ultimate-nestjs-boilerplate` repository against its source code.

The repository consists of two visible source files:
  * `src/main.ts` — the application bootstrap: it creates the framework
    application (worker or main module, Fastify adapter with a logger
    chosen from the environment), registers a fixed ordered list of
    cross-cutting concerns (cookie plugin, global validation pipe, URI
    versioning, CORS, helmet, serializer interceptor, Swagger, Sentry
    init and interceptor, conditional graceful shutdown, conditional
    WebSocket Redis adapter, the bull-board auth request hook) and then
    listens on a port chosen by the worker flag.
  * an entity file — `VerificationEntity`, a TypeORM entity mapped to
    table `verification` with columns `identifier`, `value`, `expiresAt`.

This file shallowly embeds those two files and proves the frozen claims
about them.
-/

/-- The `Environment` enum from `src/constants/app.constant.ts`, whose
values are the keys of `envToLogger` in `src/main.ts`:
`local`, `development`, `production`, `staging`, `test`. -/
inductive Environment
  | «local»
  | development
  | production
  | staging
  | test
  deriving DecidableEq, Repr

/-- The value placed in the Fastify `logger` option in `src/main.ts`:
`consoleLoggingConfig()` (a console logging configuration object),
`true` (fully enabled) or `false` (disabled). -/
inductive LoggerSetting
  | console
  | enabled
  | disabled
  deriving DecidableEq, Repr

/-- The `envToLogger` record of `src/main.ts`:
`local`/`development` map to `consoleLoggingConfig()`, `production` and
`staging` to `true`, `test` to `false`. -/
def envToLogger : Environment → LoggerSetting
  | Environment.«local» => LoggerSetting.console
  | Environment.development => LoggerSetting.console
  | Environment.production => LoggerSetting.enabled
  | Environment.staging => LoggerSetting.enabled
  | Environment.test => LoggerSetting.disabled

/-- The configuration values `src/main.ts` reads from `getAppConfig()`
and the `ConfigService` (names from the source: `nodeEnv`, `isWorker`,
`appLogging`, `isHttps`, `app.corsOrigin`, `app.port`, `app.workerPort`,
`auth.authSecret`, `sentry.dsn`). -/
structure AppConfig where
  nodeEnv : Environment
  isWorker : Bool
  appLogging : Bool
  isHttps : Bool
  corsOrigin : String
  port : Nat
  workerPort : Nat
  authSecret : String
  sentryDsn : String
  deriving DecidableEq, Repr

/-- The module passed to `NestFactory.create`:
`AppModule.worker()` when `isWorker`, else `AppModule.main()`. -/
inductive AppModuleKind
  | worker
  | main
  deriving DecidableEq, Repr

/-- The `HttpStatus.UNPROCESSABLE_ENTITY` constant (HTTP 422). -/
def HttpStatus.UNPROCESSABLE_ENTITY : Nat := 422

/-- One entry of the `errors: ValidationError[]` array handed to the
`exceptionFactory` of the validation pipe; `property` is the offending
body field. -/
structure ValidationError where
  property : String
  deriving DecidableEq, Repr

/-- An HTTP exception as produced by the pipe:
a status code and the structured validation error detail it carries. -/
structure HttpException where
  status : Nat
  errors : List ValidationError
  deriving DecidableEq, Repr

/-- The `exceptionFactory` installed on the validation pipe in
`src/main.ts`: `new UnprocessableEntityException(errors)`, an exception
with status 422 carrying the validation errors. -/
def exceptionFactory (errors : List ValidationError) : HttpException :=
  { status := HttpStatus.UNPROCESSABLE_ENTITY, errors := errors }

/-- The options object passed to `new ValidationPipe({...})` in
`src/main.ts` (the `exceptionFactory` field is the separate definition
`exceptionFactory` above). -/
structure ValidationPipeOptions where
  transform : Bool
  whitelist : Bool
  forbidNonWhitelisted : Bool
  errorHttpStatusCode : Nat
  deriving DecidableEq, Repr

/-- The concrete options of the global validation pipe registered in
`src/main.ts`. -/
def validationPipeOptions : ValidationPipeOptions :=
  { transform := true
  , whitelist := true
  , forbidNonWhitelisted := true
  , errorHttpStatusCode := HttpStatus.UNPROCESSABLE_ENTITY }

/-- The options object passed to `app.enableCors({...})` in
`src/main.ts`. -/
structure CorsOptions where
  origin : String
  methods : List String
  allowedHeaders : List String
  credentials : Bool
  deriving DecidableEq, Repr

/-- The concrete CORS options of `src/main.ts`: origin from
configuration (`app.corsOrigin`), the fixed method list, the fixed
allowed-header list, credentials enabled. -/
def corsOptions (origin : String) : CorsOptions :=
  { origin := origin
  , methods := ["GET", "PATCH", "POST", "PUT", "DELETE", "OPTIONS", "HEAD"]
  , allowedHeaders := ["Content-Type", "Authorization", "X-Requested-With", "Accept"]
  , credentials := true }

/-- The `VersioningType.URI` argument of `app.enableVersioning`. -/
inductive VersioningType
  | uri
  deriving DecidableEq, Repr

/-- The two global interceptors registered in `src/main.ts`:
`ClassSerializerInterceptor` and `SentryInterceptor`. -/
inductive InterceptorKind
  | classSerializer
  | sentry
  deriving DecidableEq, Repr

/-- One registration / side-effecting call of the bootstrap sequence of
`src/main.ts`, in source order, with the configuration data each call
receives. `setGlobalApiRoot` embeds the call `app.setGlobalPrefix` with
its string argument. -/
inductive Step
  | registerCookie (secret : String)
  | setGlobalApiRoot (p : String)
  | useGlobalPipes (opts : ValidationPipeOptions)
  | enableVersioning (t : VersioningType)
  | enableCors (opts : CorsOptions)
  | useHelmet
  | useGlobalInterceptor (i : InterceptorKind)
  | setupSwagger
  | sentryInit (dsn : String) (environment : Environment)
  | setupGracefulShutdown
  | useWebSocketAdapter
  | addBullBoardHook
  | listen (port : Nat) (host : String)
  deriving DecidableEq, Repr

/-- The registration kind of a step, forgetting its arguments. -/
inductive StepKind
  | cookie
  | globalApiRoot
  | globalPipes
  | versioning
  | cors
  | helmet
  | classSerializer
  | swagger
  | sentryInit
  | sentryInterceptor
  | gracefulShutdown
  | webSocketAdapter
  | bullBoardHook
  | listen
  deriving DecidableEq, Repr

/-- Maps each bootstrap step to its registration kind. -/
def Step.kind : Step → StepKind
  | Step.registerCookie _ => StepKind.cookie
  | Step.setGlobalApiRoot _ => StepKind.globalApiRoot
  | Step.useGlobalPipes _ => StepKind.globalPipes
  | Step.enableVersioning _ => StepKind.versioning
  | Step.enableCors _ => StepKind.cors
  | Step.useHelmet => StepKind.helmet
  | Step.useGlobalInterceptor InterceptorKind.classSerializer => StepKind.classSerializer
  | Step.useGlobalInterceptor InterceptorKind.sentry => StepKind.sentryInterceptor
  | Step.setupSwagger => StepKind.swagger
  | Step.sentryInit _ _ => StepKind.sentryInit
  | Step.setupGracefulShutdown => StepKind.gracefulShutdown
  | Step.useWebSocketAdapter => StepKind.webSocketAdapter
  | Step.addBullBoardHook => StepKind.bullBoardHook
  | Step.listen _ _ => StepKind.listen

/-- The ordered list of registrations performed by `bootstrap()` in
`src/main.ts` after `NestFactory.create`, in source order:
cookie plugin with the auth secret, global route root segment `api`,
global validation pipe, URI versioning, CORS, helmet, the class
serializer interceptor, Swagger, Sentry initialisation with the
configured DSN and environment, the Sentry interceptor, graceful
shutdown setup guarded by `env !== 'local'`, the Redis WebSocket
adapter guarded by `!isWorker`, the bull-board `onRequest` hook, and
finally `app.listen` with the worker-or-main port on host `0.0.0.0`. -/
def bootstrapSteps (cfg : AppConfig) : List Step :=
  [ Step.registerCookie cfg.authSecret
  , Step.setGlobalApiRoot ("api")
  , Step.useGlobalPipes validationPipeOptions
  , Step.enableVersioning VersioningType.uri
  , Step.enableCors (corsOptions cfg.corsOrigin)
  , Step.useHelmet
  , Step.useGlobalInterceptor InterceptorKind.classSerializer
  , Step.setupSwagger
  , Step.sentryInit cfg.sentryDsn cfg.nodeEnv
  , Step.useGlobalInterceptor InterceptorKind.sentry ]
  ++ (if cfg.nodeEnv = Environment.«local» then [] else [Step.setupGracefulShutdown])
  ++ (if cfg.isWorker then [] else [Step.useWebSocketAdapter])
  ++ [ Step.addBullBoardHook
     , Step.listen (if cfg.isWorker then cfg.workerPort else cfg.port) ("0.0.0.0") ]

/-- The observable result of one run of `bootstrap()` in `src/main.ts`:
the module selected for `NestFactory.create`, the Fastify adapter
options (`logger`, `trustProxy`), the `bufferLogs` option, and the
ordered registration steps. -/
structure BootstrapResult where
  appModule : AppModuleKind
  logger : LoggerSetting
  trustProxy : Bool
  bufferLogs : Bool
  steps : List Step
  deriving DecidableEq, Repr

/-- The `bootstrap` function of `src/main.ts`: module chosen by
`isWorker`, Fastify logger `appLogging ? envToLogger[nodeEnv] : false`,
`trustProxy` from `isHttps`, `bufferLogs: true`, then the registration
sequence `bootstrapSteps`. -/
def bootstrap (cfg : AppConfig) : BootstrapResult :=
  { appModule := if cfg.isWorker then AppModuleKind.worker else AppModuleKind.main
  , logger := if cfg.appLogging then envToLogger cfg.nodeEnv else LoggerSetting.disabled
  , trustProxy := cfg.isHttps
  , bufferLogs := true
  , steps := bootstrapSteps cfg }

/-- A field of an incoming request body, as seen by the validation
pipe: its name and whether its value is well-formed for the DTO's
declared validation rules. -/
structure BodyField where
  name : String
  wellFormed : Bool
  deriving DecidableEq, Repr

/-- Modelled from the spec: the semantics of the framework's
`ValidationPipe` (external framework code; only its configuration is in
`src/main.ts`). Per the spec, "global request validation rejects
unknown/malformed fields with HTTP 422" and "Validation failures
surface as HTTP 422 with structured validation error detail": with
`forbidNonWhitelisted` set, a body field not declared on the target DTO
is a validation error; a malformed field is a validation error; when
any validation errors exist the configured `exceptionFactory` builds
the rejection from them; otherwise, with `whitelist` set, undeclared
fields are stripped and the request proceeds. -/
def runValidationPipe (opts : ValidationPipeOptions) (declared : List String)
    (body : List BodyField) : Except HttpException (List BodyField) :=
  let bad : BodyField → Bool := fun f =>
    (opts.forbidNonWhitelisted && !(declared.contains f.name)) || !f.wellFormed
  let errs := body.filter bad
  if errs.isEmpty then
    Except.ok (if opts.whitelist then body.filter (fun f => declared.contains f.name) else body)
  else
    Except.error (exceptionFactory (errs.map (fun f => ValidationError.mk f.name)))

/-- The outcome of the bull-board `onRequest` hook for one request:
the auth middleware was not invoked at all, or it was invoked and
allowed or rejected the request. -/
inductive GateOutcome
  | notInvoked
  | allowed
  | rejected
  deriving DecidableEq, Repr

/-- Modelled from the spec: `bullBoardAuthMiddleware` is declared in
`src/middlewares/bull-board-auth.middleware.ts`, which is not among the
provided sources. Per the spec, the dashboard is "gated by a custom
authentication check on every request to that path" and "a request to
the job-dashboard path without valid credentials is rejected". -/
def bullBoardAuthMiddleware (hasValidCredentials : Bool) : GateOutcome :=
  if hasValidCredentials then GateOutcome.allowed else GateOutcome.rejected

/-- The `onRequest` Fastify hook added in `src/main.ts`: when the
request URL starts with the `api` route root followed by
`BULL_BOARD_PATH` (a constant of the middleware file, kept here as the
parameter `bullBoardPath`), it awaits `bullBoardAuthMiddleware` on the
request; otherwise it does nothing. -/
def onRequestHook (bullBoardPath : String) (url : String)
    (hasValidCredentials : Bool) : GateOutcome :=
  if (("/api" ++ bullBoardPath).data).isPrefixOf url.data then
    bullBoardAuthMiddleware hasValidCredentials
  else
    GateOutcome.notInvoked

/-- The TypeScript-level type of an entity column. -/
inductive TsType
  | string
  | date
  deriving DecidableEq, Repr

/-- One `@Column()` declaration of an entity: name, TypeScript type,
the explicit database type when the decorator options give one, and
whether the decorator declares a uniqueness constraint. -/
structure ColumnDef where
  name : String
  tsType : TsType
  dbType : Option String
  unique : Bool
  deriving DecidableEq, Repr

/-- An `@Entity` class declaration: the relational table name, whether
it extends the shared `BaseModel` record type, and its own declared
columns. -/
structure EntityDef where
  tableName : String
  extendsBase : Bool
  columns : List ColumnDef
  deriving DecidableEq, Repr

/-- The `VerificationEntity` of the entity source file:
`@Entity('verification')`, extends `BaseModel`, with columns
`identifier` (`@Column()`, string), `value` (`@Column()`, string) and
`expiresAt` (`@Column({ type: 'timestamp' })`, Date); no decorator
declares a uniqueness constraint and no methods or other members are
declared. -/
def VerificationEntity : EntityDef :=
  { tableName := "verification"
  , extendsBase := true
  , columns :=
      [ { name := "identifier", tsType := TsType.string, dbType := none, unique := false }
      , { name := "value", tsType := TsType.string, dbType := none, unique := false }
      , { name := "expiresAt", tsType := TsType.date, dbType := some "timestamp", unique := false } ] }

/-- All entity declarations present in the provided sources. -/
def persistedEntities : List EntityDef := [VerificationEntity]

/-- Modelled from the spec: what `SentryInterceptor`
(`src/interceptors/sentry.interceptor.ts`, not among the provided
sources) does with a runtime error. Per the spec, "All other runtime
errors are forwarded to an external error-monitoring service via an
interceptor; no local recovery, retry, or circuit-breaking logic is
defined in-repository". -/
inductive ErrorAction
  | forwardToMonitoring
  | recoverLocally
  | retryRequest
  | circuitBreak
  deriving DecidableEq, Repr

/-- Modelled from the spec: the Sentry interceptor forwards every
runtime error it sees to the external monitoring service. -/
def sentryInterceptorOnError : ErrorAction := ErrorAction.forwardToMonitoring

/-- Every registration kind that the bootstrap sequence can emit; used
to state that the bootstrap performs only these registrations (none of
which is a recovery, retry or circuit-breaking mechanism). -/
def registrationKinds : List StepKind :=
  [ StepKind.cookie, StepKind.globalApiRoot, StepKind.globalPipes
  , StepKind.versioning, StepKind.cors, StepKind.helmet
  , StepKind.classSerializer, StepKind.swagger, StepKind.sentryInit
  , StepKind.sentryInterceptor, StepKind.gracefulShutdown
  , StepKind.webSocketAdapter, StepKind.bullBoardHook, StepKind.listen ]

/-- Claim C1: for every incoming request whose body contains a field
not declared on the target DTO (or a malformed field), the global
validation pipe — registered with the options of `src/main.ts` —
rejects the request with HTTP status 422 (Unprocessable Entity),
carrying structured validation error detail built from the validation
errors; and that pipe is registered on every bootstrap. -/
theorem validationPipe_rejects_unknown_or_malformed_with_422 :
    (∀ cfg : AppConfig, Step.useGlobalPipes validationPipeOptions ∈ (bootstrap cfg).steps)
    ∧ ∀ (declared : List String) (body : List BodyField),
        (∃ f ∈ body, declared.contains f.name = false ∨ f.wellFormed = false) →
        ∃ errs : List ValidationError, errs ≠ []
          ∧ runValidationPipe validationPipeOptions declared body =
              Except.error (exceptionFactory errs)
          ∧ (exceptionFactory errs).status = 422 := by
  constructor
  · intro cfg
    simp [bootstrap, bootstrapSteps]
  · intro declared body hex
    obtain ⟨f, hmem, hbad⟩ := hex
    have hbadb : ((validationPipeOptions.forbidNonWhitelisted &&
        !(declared.contains f.name)) || !f.wellFormed) = true := by
      rcases hbad with h | h
      · rw [h]; rfl
      · rw [h]; cases declared.contains f.name <;> rfl
    have hfe : f ∈ body.filter (fun g =>
        (validationPipeOptions.forbidNonWhitelisted && !(declared.contains g.name)) || !g.wellFormed) :=
      List.mem_filter.mpr ⟨hmem, hbadb⟩
    have hne : body.filter (fun g =>
        (validationPipeOptions.forbidNonWhitelisted && !(declared.contains g.name)) || !g.wellFormed) ≠ [] :=
      List.ne_nil_of_mem hfe
    refine ⟨(body.filter (fun g =>
        (validationPipeOptions.forbidNonWhitelisted && !(declared.contains g.name)) || !g.wellFormed)).map
          (fun g => ValidationError.mk g.name), ?_, ?_, rfl⟩
    · intro hmap
      exact hne (List.map_eq_nil_iff.mp hmap)
    · have hEmpty : (body.filter (fun g =>
          (validationPipeOptions.forbidNonWhitelisted && !(declared.contains g.name)) || !g.wellFormed)).isEmpty = false := by
        cases hl : body.filter (fun g =>
            (validationPipeOptions.forbidNonWhitelisted && !(declared.contains g.name)) || !g.wellFormed) with
        | nil => exact absurd hl hne
        | cons a l => rfl
      simp only [runValidationPipe, hEmpty]
      rfl

/-- Witness for C1: a DTO declaring only the field `name` and a body
carrying the undeclared field `extra` is rejected with status 422. -/
theorem validationPipe_rejects_unknown_or_malformed_with_422_witness :
    ∃ errs : List ValidationError, errs ≠ []
      ∧ runValidationPipe validationPipeOptions ["name"]
          [{ name := "name", wellFormed := true }, { name := "extra", wellFormed := true }]
          = Except.error (exceptionFactory errs)
      ∧ (exceptionFactory errs).status = 422 :=
  validationPipe_rejects_unknown_or_malformed_with_422.2 ["name"]
    [{ name := "name", wellFormed := true }, { name := "extra", wellFormed := true }]
    ⟨{ name := "extra", wellFormed := true }, by decide, by decide⟩

/-- Claim C2: every startup performs exactly one `listen`, on the
configured worker port when the worker flag is set and on the primary
configured port otherwise, and in both cases on host `0.0.0.0` (all
interfaces). -/
theorem listen_binds_worker_or_main_port_on_all_interfaces : ∀ cfg : AppConfig,
    (bootstrap cfg).steps.filter (fun s => decide (Step.kind s = StepKind.listen)) =
      [Step.listen (if cfg.isWorker then cfg.workerPort else cfg.port) ("0.0.0.0")] := by
  intro cfg
  obtain ⟨env, w, lg, https, origin, port, wport, secret, dsn⟩ := cfg
  cases env <;> cases w <;> rfl

/-- Counterexample to claim C3: in `test` environment mode the graceful
shutdown utility IS set up, because the guard in `src/main.ts` is
`env !== 'local'`, not `env !== 'local' && env !== 'test'`; the claim
says it must not be set up in test mode. -/
theorem gracefulShutdown_is_set_up_in_test_mode :
    Step.setupGracefulShutdown ∈ (bootstrap
      { nodeEnv := Environment.test, isWorker := false, appLogging := false, isHttps := false
      , corsOrigin := "o", port := 3000, workerPort := 3001
      , authSecret := "s", sentryDsn := "d" }).steps := by
  decide

/-- Claim C3 as amended: the graceful-shutdown utility is set up
exactly when the environment mode is not `local` (so it is set up in
test mode as well). -/
theorem gracefulShutdown_iff_env_not_local : ∀ cfg : AppConfig,
    Step.setupGracefulShutdown ∈ (bootstrap cfg).steps ↔ cfg.nodeEnv ≠ Environment.«local» := by
  intro cfg
  obtain ⟨env, w, lg, https, origin, port, wport, secret, dsn⟩ := cfg
  cases env <;> cases w <;> simp [bootstrap, bootstrapSteps]

/-- Claim C4: the bull-board `onRequest` hook is registered on every
bootstrap, and for every request whose URL begins with the `/api`
route root followed by `BULL_BOARD_PATH` the authentication middleware
is invoked on it, and without valid credentials the request is
rejected. -/
theorem bullBoard_auth_invoked_on_dashboard_path_and_rejects :
    (∀ cfg : AppConfig, Step.addBullBoardHook ∈ (bootstrap cfg).steps)
    ∧ ∀ (bullBoardPath url : String) (creds : Bool),
        (("/api" ++ bullBoardPath).data).isPrefixOf url.data = true →
        (onRequestHook bullBoardPath url creds ≠ GateOutcome.notInvoked
         ∧ (creds = false → onRequestHook bullBoardPath url creds = GateOutcome.rejected)) := by
  constructor
  · intro cfg
    obtain ⟨env, w, lg, https, origin, port, wport, secret, dsn⟩ := cfg
    cases env <;> cases w <;> simp [bootstrap, bootstrapSteps]
  · intro p url creds h
    constructor
    · simp only [onRequestHook]
      rw [if_pos h]
      cases creds <;> simp [bullBoardAuthMiddleware]
    · intro hc
      subst hc
      simp only [onRequestHook]
      rw [if_pos h]
      rfl

/-- Witness for C4: a request to the dashboard path without valid
credentials goes through the middleware and is rejected. -/
theorem bullBoard_auth_invoked_on_dashboard_path_and_rejects_witness :
    onRequestHook ("/queues") ("/api/queues/jobs") false ≠ GateOutcome.notInvoked
    ∧ onRequestHook ("/queues") ("/api/queues/jobs") false = GateOutcome.rejected := by
  have h := bullBoard_auth_invoked_on_dashboard_path_and_rejects.2
    ("/queues") ("/api/queues/jobs") false (by decide)
  exact ⟨h.1, h.2 rfl⟩

/-- Counterexample to claim C5: worker-mode and main-mode bootstraps do
NOT register the same list of cross-cutting concerns: the WebSocket
adapter swap (`RedisIoAdapter`) is guarded by `!isWorker` in
`src/main.ts`, so a worker bootstrap omits it while an otherwise
identical main bootstrap registers it. -/
theorem worker_mode_omits_webSocketAdapter :
    Step.useWebSocketAdapter ∉ (bootstrap
      { nodeEnv := Environment.production, isWorker := true, appLogging := true, isHttps := false
      , corsOrigin := "o", port := 3000, workerPort := 3001
      , authSecret := "s", sentryDsn := "d" }).steps
    ∧ Step.useWebSocketAdapter ∈ (bootstrap
      { nodeEnv := Environment.production, isWorker := false, appLogging := true, isHttps := false
      , corsOrigin := "o", port := 3000, workerPort := 3001
      , authSecret := "s", sentryDsn := "d" }).steps := by
  decide

/-- Claim C5 as amended: apart from the WebSocket adapter swap, worker
and main bootstraps register the same fixed ordered list of
registration kinds; the WebSocket adapter swap is registered exactly
when the worker flag is off; the dashboard authentication hook is
registered in both modes. -/
theorem bootstrap_kinds_agree_except_webSocketAdapter : ∀ (cfg : AppConfig) (b₁ b₂ : Bool),
    (((bootstrap { cfg with isWorker := b₁ }).steps.map Step.kind).filter
        (fun k => decide (k ≠ StepKind.webSocketAdapter)) =
      ((bootstrap { cfg with isWorker := b₂ }).steps.map Step.kind).filter
        (fun k => decide (k ≠ StepKind.webSocketAdapter)))
    ∧ (StepKind.webSocketAdapter ∈ (bootstrap cfg).steps.map Step.kind ↔ cfg.isWorker = false)
    ∧ StepKind.bullBoardHook ∈ (bootstrap cfg).steps.map Step.kind := by
  intro cfg b₁ b₂
  obtain ⟨env, w, lg, https, origin, port, wport, secret, dsn⟩ := cfg
  refine ⟨by cases env <;> cases b₁ <;> cases b₂ <;> rfl, ?_, ?_⟩
  · cases env <;> cases w <;> simp [bootstrap, bootstrapSteps, Step.kind]
  · cases env <;> cases w <;> simp [bootstrap, bootstrapSteps, Step.kind]

/-- Claim C6: every startup enables CORS exactly once, with the origin
taken from configuration, exactly the method set GET, PATCH, POST,
PUT, DELETE, OPTIONS, HEAD, exactly the allowed headers Content-Type,
Authorization, X-Requested-With, Accept, and credentials enabled. -/
theorem cors_enabled_with_fixed_methods_headers_credentials : ∀ cfg : AppConfig,
    (bootstrap cfg).steps.filter (fun s => decide (Step.kind s = StepKind.cors)) =
      [Step.enableCors
        { origin := cfg.corsOrigin
        , methods := ["GET", "PATCH", "POST", "PUT", "DELETE", "OPTIONS", "HEAD"]
        , allowedHeaders := ["Content-Type", "Authorization", "X-Requested-With", "Accept"]
        , credentials := true }] := by
  intro cfg
  obtain ⟨env, w, lg, https, origin, port, wport, secret, dsn⟩ := cfg
  cases env <;> cases w <;> rfl

/-- Claim C7: every bootstrap initialises the error-monitoring SDK
exactly once, with the configured DSN (and environment), and registers
the global Sentry error-forwarding interceptor; the interceptor
forwards errors to the external monitoring service, and every step the
bootstrap performs is a registration of one of the listed kinds — none
of which is a local recovery, retry or circuit-breaking mechanism. -/
theorem sentry_init_interceptor_and_no_recovery_steps : ∀ cfg : AppConfig,
    (bootstrap cfg).steps.filter (fun s => decide (Step.kind s = StepKind.sentryInit)) =
      [Step.sentryInit cfg.sentryDsn cfg.nodeEnv]
    ∧ Step.useGlobalInterceptor InterceptorKind.sentry ∈ (bootstrap cfg).steps
    ∧ sentryInterceptorOnError = ErrorAction.forwardToMonitoring
    ∧ ((bootstrap cfg).steps.all (fun s => registrationKinds.contains (Step.kind s))) = true := by
  intro cfg
  obtain ⟨env, w, lg, https, origin, port, wport, secret, dsn⟩ := cfg
  refine ⟨by cases env <;> cases w <;> rfl, ?_, rfl, by cases env <;> cases w <;> rfl⟩
  cases env <;> cases w <;> simp [bootstrap, bootstrapSteps]

/-- Claim C8: the persisted schema declares exactly one entity, mapped
to table `verification`, extending the shared base record type, with
exactly the declared columns `identifier` (string), `value` (string)
and `expiresAt` (database type `timestamp`), and no column declares a
uniqueness constraint. -/
theorem verification_entity_schema :
    persistedEntities = [VerificationEntity]
    ∧ VerificationEntity.tableName = "verification"
    ∧ VerificationEntity.extendsBase = true
    ∧ VerificationEntity.columns.map (fun c => (c.name, c.tsType, c.dbType)) =
        [("identifier", TsType.string, (none : Option String))
        , ("value", TsType.string, none)
        , ("expiresAt", TsType.date, some "timestamp")]
    ∧ (VerificationEntity.columns.all fun c => !c.unique) = true :=
  ⟨rfl, rfl, rfl, rfl, rfl⟩

/-- Claim C9: the framework logger is disabled whenever `appLogging`
is false; with `appLogging` true it is the console configuration in
`local` and `development`, fully enabled in `production` and
`staging`, and disabled in `test` — and in `test` mode it is disabled
regardless of the `appLogging` flag. -/
theorem fastify_logger_configuration : ∀ cfg : AppConfig,
    (cfg.appLogging = false → (bootstrap cfg).logger = LoggerSetting.disabled)
    ∧ (cfg.appLogging = true ∧
        (cfg.nodeEnv = Environment.«local» ∨ cfg.nodeEnv = Environment.development) →
        (bootstrap cfg).logger = LoggerSetting.console)
    ∧ (cfg.appLogging = true ∧
        (cfg.nodeEnv = Environment.production ∨ cfg.nodeEnv = Environment.staging) →
        (bootstrap cfg).logger = LoggerSetting.enabled)
    ∧ (cfg.nodeEnv = Environment.test → (bootstrap cfg).logger = LoggerSetting.disabled) := by
  intro cfg
  obtain ⟨env, w, lg, https, origin, port, wport, secret, dsn⟩ := cfg
  cases env <;> cases lg <;> simp [bootstrap, envToLogger]

/-- Witness for C9: with `appLogging` on, the logger is disabled in
test mode and is the console configuration in development mode. -/
theorem fastify_logger_configuration_witness :
    (bootstrap { nodeEnv := Environment.test, isWorker := false, appLogging := true, isHttps := false
               , corsOrigin := "o", port := 3000, workerPort := 3001
               , authSecret := "s", sentryDsn := "d" }).logger = LoggerSetting.disabled
    ∧ (bootstrap { nodeEnv := Environment.development, isWorker := false, appLogging := true, isHttps := false
                 , corsOrigin := "o", port := 3000, workerPort := 3001
                 , authSecret := "s", sentryDsn := "d" }).logger = LoggerSetting.console :=
  ⟨(fastify_logger_configuration _).2.2.2 rfl,
   (fastify_logger_configuration _).2.1 ⟨rfl, Or.inr rfl⟩⟩

/-- Claim C10: for every request whose URL does not begin with the
`/api` route root followed by `BULL_BOARD_PATH`, the bull-board
authentication middleware is never invoked. -/
theorem bullBoard_auth_not_invoked_off_dashboard_path : ∀ (bullBoardPath url : String) (creds : Bool),
    (("/api" ++ bullBoardPath).data).isPrefixOf url.data = false →
    onRequestHook bullBoardPath url creds = GateOutcome.notInvoked := by
  intro p url creds h
  simp only [onRequestHook]
  rw [if_neg (by rw [h]; exact Bool.false_ne_true)]

/-- Witness for C10: a request to an ordinary API route never reaches
the dashboard middleware. -/
theorem bullBoard_auth_not_invoked_off_dashboard_path_witness :
    onRequestHook ("/queues") ("/api/v1/users") true = GateOutcome.notInvoked :=
  bullBoard_auth_not_invoked_off_dashboard_path ("/queues") ("/api/v1/users") true (by decide)
